import Mathlib

/-!
Verification of the node-json2video asynchronous rendering pipeline.

The definitions below are a shallow embedding of the TypeScript sources:
the validation module (Joi schema, `isValidUrl`), the `/create-video`
route handler's acquisition phase and queue options, and the queue
worker's `createVideoTask` (ffmpeg filter composition, webhook call,
cleanup).  JavaScript numbers that carry fractional values (zoom,
framerate, duration) are embedded as rationals; pixel dimensions as
integers.  Effectful steps (download, process spawn, webhook, unlink)
are embedded by passing an explicit environment of their outcomes.
-/

namespace J2V

/-! ## Configuration (src/config/index.ts, defaults with no environment overrides) -/

/-- `ALLOWED_DOMAINS` default: the comma-separated list split on commas. -/
def allowedDomains : List String := ["example.com", "trusted.com"]

/-- The four region-tagged allowed-IP lists of `config.allowedIPs`, defaults. -/
structure AllowedIPs where
  LOCAL : List String
  MAKE_US1 : List String
  MAKE_EU2 : List String
  MAKE_EU1 : List String
  deriving DecidableEq, Repr

def configAllowedIPs : AllowedIPs :=
  ⟨["localhost"],
   ["54.209.79.175", "54.80.47.193", "54.161.178.114"],
   ["34.254.1.9", "52.31.156.93", "52.50.32.186"],
   ["54.75.157.176", "54.78.149.203", "52.18.144.195"]⟩

/-- `Object.values(config.allowedIPs).flat()` as computed in `isValidUrl`. -/
def allowedIPsFlat : List String :=
  configAllowedIPs.LOCAL ++ configAllowedIPs.MAKE_US1 ++
    configAllowedIPs.MAKE_EU2 ++ configAllowedIPs.MAKE_EU1

/-! ## URL parsing model -/

/-- The two URL fields `isValidUrl` reads from `new URL(url)`. -/
structure ParsedUrl where
  protocol : String
  hostname : String
  deriving DecidableEq, Repr

def isSchemeChar (c : Char) : Bool :=
  c.isAlphanum || c == '+' || c == '-' || c == '.'

def lowerList (cs : List Char) : List Char := cs.map Char.toLower

/-- Modelled from the spec: Node's WHATWG `new URL` constructor (an external
library, no source in this repository), restricted to the `protocol` and
`hostname` fields that `isValidUrl` consumes.  The model requires a
`scheme:` made of scheme characters followed by an explicit `//` authority,
strips userinfo and port, lowercases scheme and host, and fails (the
embedded counterpart of the constructor throwing) on anything else;
percent-encoding, IDNA and IPv6 bracket handling are omitted. -/
def parseUrl (s : String) : Option ParsedUrl :=
  let cs := s.toList
  let scheme := cs.takeWhile (fun c => !(c == ':'))
  let rest := cs.dropWhile (fun c => !(c == ':'))
  match rest with
  | [] => none
  | _ :: afterColon =>
    if scheme.isEmpty then none
    else if !(scheme.headD ' ').isAlpha then none
    else if !scheme.all isSchemeChar then none
    else
      match afterColon with
      | '/' :: '/' :: afterSlashes =>
        let authority := afterSlashes.takeWhile
          (fun c => !(c == '/') && !(c == '?') && !(c == '#'))
        let hostPort := (authority.reverse.takeWhile (fun c => !(c == '@'))).reverse
        let host := hostPort.takeWhile (fun c => !(c == ':'))
        if host.isEmpty then none
        else some ⟨String.mk (lowerList scheme) ++ ":", String.mk (lowerList host)⟩
      | _ => none

/-- `isValidUrl` (src validation module): http/https scheme check, then
hostname membership in the flattened allowed-IP list or the allowed
domains; a parse failure (the `catch` branch) yields `false`. -/
def isValidUrl (url : String) : Bool :=
  match parseUrl url with
  | some parsedUrl =>
    if !(["http:", "https:"].contains parsedUrl.protocol) then false
    else if !(allowedIPsFlat.contains parsedUrl.hostname)
            && !(allowedDomains.contains parsedUrl.hostname) then false
    else true
  | none => false

/-! ## Request validation (src validation module) -/

/-- `VideoRequest` (src/types): the request body fields.  `webhook_url` is
optional; numeric JSON fields are rationals, `output_width` and
`output_height` are integers (the Joi `.integer()` constraint is captured
by the type). -/
structure VideoRequest where
  record_id : String
  input_url : String
  webhook_url : Option String
  framerate : ℚ
  duration : ℚ
  cache : Bool
  zoom : ℚ
  crop : Bool
  output_width : Int
  output_height : Int
  deriving DecidableEq, Repr

structure ValidationResult where
  isValid : Bool
  error : Option String
  deriving DecidableEq, Repr

/-- Joi `string().alphanum()` on a required key: non-empty and every
character in `[0-9a-zA-Z]`. -/
def isJoiAlphanum (s : String) : Bool :=
  !s.isEmpty && s.toList.all Char.isAlphanum

/-- Joi `string().uri()`: the string parses as a URL. -/
def isJoiUri (s : String) : Bool := (parseUrl s).isSome

/-- `validateJson`: `videoRequestSchema.validate(data)` with Joi's default
abort-early behaviour — the keys are checked in schema order and the first
violated constraint produces the single error message (`details[0].message`,
paraphrased here). -/
def validateJson (r : VideoRequest) : ValidationResult :=
  if !isJoiAlphanum r.record_id then
    ⟨false, some "record_id must only contain alpha-numeric characters"⟩
  else if !isJoiUri r.input_url then
    ⟨false, some "input_url must be a valid uri"⟩
  else if !(match r.webhook_url with
            | some u => isJoiUri u
            | none => true) then
    ⟨false, some "webhook_url must be a valid uri"⟩
  else if ¬ (0 < r.framerate) then
    ⟨false, some "framerate must be a positive number"⟩
  else if ¬ (0 < r.duration ∧ r.duration ≤ 60) then
    ⟨false, some "duration must be a positive number not greater than 60"⟩
  else if ¬ (-100 ≤ r.zoom ∧ r.zoom ≤ 100) then
    ⟨false, some "zoom must be between -100 and 100"⟩
  else if ¬ (0 < r.output_width) then
    ⟨false, some "output_width must be a positive integer"⟩
  else if ¬ (0 < r.output_height) then
    ⟨false, some "output_height must be a positive integer"⟩
  else ⟨true, none⟩

/-- The validation sequence of the `POST /create-video` handler
(src routes module, lines 26-55): `validateJson` first, answering
`Invalid input data` on failure; then `isValidUrl(input_url)` answering
`Invalid input URL`; then, when a webhook URL is present (JavaScript
truthiness: a non-empty string), `isValidUrl(webhook_url)` answering
`Invalid webhook URL`.  `none` means validation passed. -/
def validateCreateVideoRequest (r : VideoRequest) : Option String :=
  if !(validateJson r).isValid then some "Invalid input data"
  else if !isValidUrl r.input_url then some "Invalid input URL"
  else match r.webhook_url with
    | some u => if u ≠ "" ∧ isValidUrl u = false then some "Invalid webhook URL" else none
    | none => none

/-! ## Acquirer (the download-and-probe phase of the `POST /create-video`
handler, src routes module lines 62-153) -/

/-- Outcomes of the external operations of the acquisition phase:
`downloadOk` — `axios.get` resolves (no timeout, oversize or network
error); `contentTypeJson` — the response content-type includes
`application/json`; `writeOk` — the cache write stream finishes rather
than erroring; `probeOk` — ffprobe exits 0 and its JSON output parses;
`probedWidth`/`probedHeight` — the first video stream's dimensions. -/
structure AcqEnv where
  downloadOk : Bool
  contentTypeJson : Bool
  writeOk : Bool
  probeOk : Bool
  probedWidth : Int
  probedHeight : Int
  deriving DecidableEq, Repr

inductive AcqResult
  | ok (file : String) (w h : Int)
  | err (msg : String)
  deriving DecidableEq, Repr

/-- The acquisition result together with the files left in the cache
directory when the phase returns. -/
structure AcqRun where
  result : AcqResult
  cacheFiles : List String
  deriving DecidableEq, Repr

/-- The acquisition phase: download (failures are caught and answered with
`Failed to download input file`), content-type check (answered with
`Invalid file type` before anything is written), stream write to the
cache file, then the ffprobe dimension probe.  No branch removes the
cache file once the write stream has been opened. -/
def acquireInput (cachedName : String) (env : AcqEnv) : AcqRun :=
  if !env.downloadOk then ⟨.err "Failed to download input file", []⟩
  else if env.contentTypeJson then ⟨.err "Invalid file type", []⟩
  else if !env.writeOk then ⟨.err "Failed to download input file", [cachedName]⟩
  else if !env.probeOk then ⟨.err "Failed to download input file", [cachedName]⟩
  else ⟨.ok cachedName env.probedWidth env.probedHeight, [cachedName]⟩

/-! ## Job scheduler (Bull queue; options from `videoQueue.add`, src routes
module lines 172-181) -/

structure QueueOpts where
  attempts : Nat
  backoffDelayMs : Nat
  deriving DecidableEq, Repr

/-- The options the handler passes to `videoQueue.add`: `attempts: 3`,
exponential backoff with base delay 2000 ms. -/
def videoJobOpts : QueueOpts := ⟨3, 2000⟩

inductive JobStatus
  | queued
  | active
  | completed
  | failed
  deriving DecidableEq, Repr

structure JobState where
  status : JobStatus
  attemptsMade : Nat
  deriving DecidableEq, Repr

/-- Modelled from the spec: the Bull queue engine (an external library, no
source in this repository) retries a failed handler with exponential
backoff — the delay before re-queueing after the n-th failed attempt is
`delay * 2^(n-1)` milliseconds. -/
def backoffDelayFor (opts : QueueOpts) (attemptsMade : Nat) : Nat :=
  opts.backoffDelayMs * 2 ^ (attemptsMade - 1)

/-- Modelled from the spec: one processing attempt of the Bull engine.  A
queued job is handed to the handler; on success it completes, on a thrown
error it is re-queued with the backoff delay while attempts remain, and
becomes terminally failed once the attempt budget `opts.attempts` is
exhausted.  Jobs not in the queued state are not processed.  Returns the
new job state and the retry delay, if any. -/
def processAttempt (opts : QueueOpts) (handlerOk : Bool) (j : JobState) :
    JobState × Option Nat :=
  if j.status = .queued then
    if handlerOk then (⟨.completed, j.attemptsMade + 1⟩, none)
    else if j.attemptsMade + 1 < opts.attempts then
      (⟨.queued, j.attemptsMade + 1⟩, some (backoffDelayFor opts (j.attemptsMade + 1)))
    else (⟨.failed, j.attemptsMade + 1⟩, none)
  else (j, none)

/-- Drive a fresh job through `steps` processing rounds with a handler that
always throws (encoder non-zero exit or spawn error), collecting the
retry delays in order. -/
def runFailing (opts : QueueOpts) : Nat → JobState × List Nat
  | 0 => (⟨.queued, 0⟩, [])
  | n + 1 =>
    let prev := runFailing opts n
    let step := processAttempt opts false prev.1
    (step.1, prev.2 ++ step.2.toList)

/-! ## Render worker (`createVideoTask`, src queue module) -/

/-- `VideoProcessingData` (src/types): the request fields plus the probe
results and paths added by the handler. -/
structure VideoProcessingData where
  record_id : String
  input_url : String
  webhook_url : Option String
  framerate : ℚ
  duration : ℚ
  cache : Bool
  zoom : ℚ
  crop : Bool
  output_width : Int
  output_height : Int
  input_width : Int
  input_height : Int
  request_host : String
  cached_input_file : String
  output_file : String
  deriving DecidableEq, Repr

/-- One stage of the ffmpeg `-vf` filter chain, holding the numeric
parameters the source interpolates into the corresponding filter text:
`format=yuv420p`; `crop=w:h:x:y`; the three letterbox stages of
`padFilter` (aspect-fit scale, `force_original_aspect_ratio=decrease`
scale, centered `pad`); the two `zoompan` variants
(`z=min(zoom+rate,ceiling):d=1` and `z=max(zoom-rate,floorLevel):d=1`);
and the final `scale=w:h`. -/
inductive VfStage
  | format (pix : String)
  | crop (w h x y : Int)
  | scaleMinFit (ow oh : Int)
  | scaleDecrease (ow oh : Int)
  | pad (ow oh : Int)
  | zoompanIn (rate ceiling : ℚ)
  | zoompanOut (rate floorLevel : ℚ)
  | scale (w h : Int)
  deriving DecidableEq, Repr

def isZoomStage : VfStage → Bool
  | .zoompanIn _ _ => true
  | .zoompanOut _ _ => true
  | _ => false

/-- `input_width !== output_width || input_height !== output_height`. -/
def dimsDiffer (d : VideoProcessingData) : Prop :=
  d.input_width ≠ d.output_width ∨ d.input_height ≠ d.output_height

instance (d : VideoProcessingData) : Decidable (dimsDiffer d) := by
  unfold dimsDiffer
  infer_instance

def cropWidth (d : VideoProcessingData) : Int := min d.input_width d.output_width

def cropHeight (d : VideoProcessingData) : Int := min d.input_height d.output_height

/-- `Math.floor((input_width - cropWidth) / 2)`; the numerator is
non-negative, so integer division is the JavaScript floor. -/
def cropX (d : VideoProcessingData) : Int := (d.input_width - cropWidth d) / 2

def cropY (d : VideoProcessingData) : Int := (d.input_height - cropHeight d) / 2

/-- `cropFilter` (lines 53-60): a centered crop stage when `crop` is set
and the dimensions differ, empty otherwise. -/
def cropFilter (d : VideoProcessingData) : List VfStage :=
  if d.crop = true ∧ dimsDiffer d then
    [.crop (cropWidth d) (cropHeight d) (cropX d) (cropY d)]
  else []

/-- `padFilter` (lines 62-65): the three-stage letterbox when `crop` is
unset and the dimensions differ, empty otherwise. -/
def padFilter (d : VideoProcessingData) : List VfStage :=
  if d.crop = false ∧ dimsDiffer d then
    [.scaleMinFit d.output_width d.output_height,
     .scaleDecrease d.output_width d.output_height,
     .pad d.output_width d.output_height]
  else []

/-- `maxZoomRate = 0.1` (line 69). -/
def maxZoomRate : ℚ := 1 / 10

/-- `normalizedZoom = (zoom / 100) * maxZoomRate` (line 70). -/
def normalizedZoom (d : VideoProcessingData) : ℚ := d.zoom / 100 * maxZoomRate

/-- `zoomFilter` (lines 67-76): for positive zoom a magnifying `zoompan`
clamped at ceiling 2, for negative zoom a shrinking `zoompan` (with
`Math.abs(normalizedZoom)`) clamped at floor 1, empty for zoom 0.  The
source computes this string but never interpolates it into the `-vf`
argument; see `ffmpegVf`. -/
def zoomFilter (d : VideoProcessingData) : List VfStage :=
  if d.zoom ≠ 0 then
    if 0 < d.zoom then [.zoompanIn (normalizedZoom d) 2]
    else [.zoompanOut (abs (normalizedZoom d)) 1]
  else []

/-- The `-vf` argument of the ffmpeg command (line 83):
`format=yuv420p` + `cropFilter` + `padFilter` + the final
`scale=output_width:output_height`.  The template string does not mention
`zoomFilter`, so no zoom stage ever reaches the encoder. -/
def ffmpegVf (d : VideoProcessingData) : List VfStage :=
  [.format "yuv420p"] ++ cropFilter d ++ padFilter d ++
    [.scale d.output_width d.output_height]

inductive TaskError
  | badDimensions
  | renderFailed
  | webhookFailed
  deriving DecidableEq, Repr

inductive TaskOutcome
  | success
  | failure (e : TaskError)
  deriving DecidableEq, Repr

/-- Outcomes of the external operations inside `createVideoTask`:
`renderOk` — the spawned ffmpeg process closes with exit code 0 (false
covers both a non-zero exit and a spawn error); `webhookOk` — the
`axios.post` webhook call succeeds; `cachedFileExists` — `fs.existsSync`
on the cached input file; `unlinkOk` — `fs.unlinkSync` succeeds rather
than throwing. -/
structure TaskEnv where
  renderOk : Bool
  webhookOk : Bool
  cachedFileExists : Bool
  unlinkOk : Bool
  deriving DecidableEq, Repr

/-- The task's outcome (the promise resolving or the thrown error) and
whether the cached source file was actually removed. -/
structure TaskRun where
  outcome : TaskOutcome
  removedCachedFile : Bool
  deriving DecidableEq, Repr

/-- JavaScript truthiness of `webhook_url` in `if (webhook_url)`:
present and non-empty. -/
def webhookRequested (d : VideoProcessingData) : Bool :=
  match d.webhook_url with
  | some u => !(u == "")
  | none => false

/-- `createVideoTask` (src queue module, lines 28-160), with the effects
abstracted into `TaskEnv`: dimension guard (throws on a non-positive
dimension), ffmpeg invocation (a non-zero exit or spawn error rejects the
promise and the error propagates), the webhook call when requested (a
delivery failure throws `Webhook call failed`), and finally the cleanup
block — `unlinkSync` when the file exists, its failure caught and only
logged.  A throw anywhere earlier skips the cleanup block, so
`removedCachedFile` is false on every failure path. -/
def createVideoTask (d : VideoProcessingData) (env : TaskEnv) : TaskRun :=
  if d.input_width ≤ 0 ∨ d.input_height ≤ 0 ∨ d.output_width ≤ 0 ∨ d.output_height ≤ 0 then
    ⟨.failure .badDimensions, false⟩
  else if env.renderOk = false then
    ⟨.failure .renderFailed, false⟩
  else if webhookRequested d = true ∧ env.webhookOk = false then
    ⟨.failure .webhookFailed, false⟩
  else
    ⟨.success, env.cachedFileExists && env.unlinkOk⟩

/-- Sample job data shared by the concrete evaluations: only the zoom,
crop flag, dimensions and webhook URL vary across the claims. -/
def mkJob (zoomQ : ℚ) (cropB : Bool) (iw ih ow oh : Int) (hook : Option String) :
    VideoProcessingData :=
  ⟨"rec1", "https://example.com/src.png", hook, 30, 5, false, zoomQ, cropB,
   ow, oh, iw, ih, "localhost", "cache/src.png", "movies/out.mp4"⟩

/-! ## Concrete sample requests -/

def reqBadId : VideoRequest :=
  ⟨"bad id!", "https://example.com/src.png", none, 30, 5, false, 0, false, 400, 400⟩

def reqDuration61 : VideoRequest :=
  ⟨"rec1", "https://example.com/src.png", none, 30, 61, false, 0, false, 400, 400⟩

def reqZoom150 : VideoRequest :=
  ⟨"rec1", "https://example.com/src.png", none, 30, 5, false, 150, false, 400, 400⟩

def reqEvilInput : VideoRequest :=
  ⟨"rec1", "https://evil.com/src.png", none, 30, 5, false, 0, false, 400, 400⟩

def reqEvilHook : VideoRequest :=
  ⟨"rec1", "https://example.com/src.png", some "https://evil.com/hook", 30, 5, false, 0,
   false, 400, 400⟩

/-! ## Claims -/

/-- C1: the claim says every job with zoom ≠ 0 gets a zoom stage, of rate
(zoom/100)·0.1 clamped at ceiling 2 (positive) or floor 1 (negative),
between the crop-or-pad stage and the final scale.  The code computes
exactly that stage (`zoomFilter`) but the `-vf` template never
interpolates it: for the zoom = 50 job the computed stage is
`zoompan` with rate 1/20 and ceiling 2, yet the chain handed to the
encoder contains no zoom stage; for zoom = -50 the computed stage has
rate 1/20 and floor 1; for zoom = 0 the chain (correctly) has none. -/
theorem c1_zoom_filter_computed_but_dropped :
    zoomFilter (mkJob 50 false 800 600 400 400 none) = [.zoompanIn (1 / 20) 2] ∧
    zoomFilter (mkJob (-50) false 800 600 400 400 none) = [.zoompanOut (1 / 20) 1] ∧
    (ffmpegVf (mkJob 50 false 800 600 400 400 none)).all (fun s => !isZoomStage s) = true ∧
    (ffmpegVf (mkJob 0 false 800 600 400 400 none)).all (fun s => !isZoomStage s) = true := by
  refine ⟨?_, ?_, by decide, by decide⟩
  · norm_num [zoomFilter, mkJob, normalizedZoom, maxZoomRate]
  · rw [zoomFilter]
    norm_num [mkJob, normalizedZoom, maxZoomRate]

/-- C2: with crop set and differing dimensions the chain is pixel-format
normalization, then a centered crop to (min iw ow, min ih oh) at offset
((iw − cw)/2, (ih − ch)/2), then the scale to the output size — and
nothing else (in particular no pad stages). -/
theorem c2_crop_centered_then_scale (d : VideoProcessingData)
    (hc : d.crop = true) (hd : dimsDiffer d) :
    ffmpegVf d =
      [.format "yuv420p",
       .crop (min d.input_width d.output_width) (min d.input_height d.output_height)
         ((d.input_width - min d.input_width d.output_width) / 2)
         ((d.input_height - min d.input_height d.output_height) / 2),
       .scale d.output_width d.output_height] := by
  simp [ffmpegVf, cropFilter, padFilter, cropWidth, cropHeight, cropX, cropY, hc, hd]

/-- C2 witness: input 800×600, output 400×400, crop set — the chain crops
a 400×400 region at offset (200, 100) and then scales to 400×400. -/
theorem c2_crop_centered_then_scale_witness :
    ffmpegVf (mkJob 0 true 800 600 400 400 none) =
      [.format "yuv420p", .crop 400 400 200 100, .scale 400 400] := by
  have h := c2_crop_centered_then_scale (mkJob 0 true 800 600 400 400 none)
    (by decide) (by decide)
  rw [h]; decide

/-- C3 counterexample: a job whose render step fails (non-zero ffmpeg
exit) concludes its attempt with a failure and the cached source file —
which exists — is not removed, refuting the claim that the cached file is
removed whether the attempt succeeded or failed. -/
theorem c3_failed_attempt_skips_cleanup :
    (createVideoTask (mkJob 0 false 800 600 400 400 none)
        ⟨false, true, true, true⟩).outcome = .failure .renderFailed ∧
    (createVideoTask (mkJob 0 false 800 600 400 400 none)
        ⟨false, true, true, true⟩).removedCachedFile = false := by
  decide

/-- C3 (amended): cleanup runs only when the attempt succeeds — when the
render and, if requested, the webhook delivery succeed, the removal of
the cached source file is attempted (the file is removed exactly when it
exists and the unlink succeeds) and a removal failure never changes the
job's outcome, which is success; when the render fails, or the webhook
delivery of a requested webhook fails after a successful render, cleanup
is skipped and the file is not removed. -/
theorem c3_cleanup_best_effort_on_success (d : VideoProcessingData) (env : TaskEnv)
    (hdims : ¬(d.input_width ≤ 0 ∨ d.input_height ≤ 0 ∨
               d.output_width ≤ 0 ∨ d.output_height ≤ 0)) :
    (env.renderOk = true → (webhookRequested d = true → env.webhookOk = true) →
        (createVideoTask d env).outcome = .success ∧
        (createVideoTask d env).removedCachedFile
          = (env.cachedFileExists && env.unlinkOk)) ∧
    (env.renderOk = false → (createVideoTask d env).removedCachedFile = false) ∧
    (env.renderOk = true → webhookRequested d = true → env.webhookOk = false →
        (createVideoTask d env).removedCachedFile = false) := by
  refine ⟨?_, ?_, ?_⟩
  · intro hr hw
    have hweb : ¬(webhookRequested d = true ∧ env.webhookOk = false) := by
      rintro ⟨h1, h2⟩
      rw [hw h1] at h2
      exact Bool.noConfusion h2
    simp [createVideoTask, hdims, hr, hweb]
  · intro hr
    simp [createVideoTask, hdims, hr]
  · intro hr hw hfail
    simp [createVideoTask, hdims, hr, hw, hfail]

/-- C3 witness: a successful render with no webhook, where the cached file
exists but the unlink fails — the job outcome is still success and the
file was not removed; and a successful render whose requested webhook
delivery fails — cleanup is skipped, the existing cached file stays. -/
theorem c3_cleanup_best_effort_on_success_witness :
    (createVideoTask (mkJob 0 false 800 600 400 400 none)
        ⟨true, true, true, false⟩).outcome = .success ∧
    (createVideoTask (mkJob 0 false 800 600 400 400 none)
        ⟨true, true, true, false⟩).removedCachedFile = false ∧
    (createVideoTask (mkJob 0 false 800 600 400 400 (some "https://example.com/hook"))
        ⟨true, false, true, true⟩).removedCachedFile = false := by
  have h := (c3_cleanup_best_effort_on_success (mkJob 0 false 800 600 400 400 none)
      ⟨true, true, true, false⟩ (by decide)).1 rfl (by decide)
  have h2 := (c3_cleanup_best_effort_on_success
      (mkJob 0 false 800 600 400 400 (some "https://example.com/hook"))
      ⟨true, false, true, true⟩ (by decide)).2.2 rfl (by decide) rfl
  refine ⟨h.1, ?_, h2⟩
  simpa using h.2

/-- C4 counterexample: when the download and the cache write succeed but
the probe fails, the caller receives the acquisition error and the
downloaded file remains in the cache directory, refuting the claim that
no downloaded file remains. -/
theorem c4_probe_failure_leaves_cached_file :
    (acquireInput "cache/f.mp4" ⟨true, false, true, false, 0, 0⟩).result
        = .err "Failed to download input file" ∧
    (acquireInput "cache/f.mp4" ⟨true, false, true, false, 0, 0⟩).cacheFiles
        = ["cache/f.mp4"] := by
  decide

/-- C4 (amended): every acquisition failure returns an acquisition error
to the caller; no file is cached when the failure precedes the cache
write (download timeout/oversize/network error, or a JSON content type),
but a failure of the write stream or of the probe leaves the downloaded
file in the cache directory. -/
theorem c4_acquisition_error_and_cache_state (name : String) (env : AcqEnv) :
    (env.downloadOk = false →
        acquireInput name env = ⟨.err "Failed to download input file", []⟩) ∧
    (env.downloadOk = true → env.contentTypeJson = true →
        acquireInput name env = ⟨.err "Invalid file type", []⟩) ∧
    (env.downloadOk = true → env.contentTypeJson = false → env.writeOk = false →
        acquireInput name env = ⟨.err "Failed to download input file", [name]⟩) ∧
    (env.downloadOk = true → env.contentTypeJson = false → env.writeOk = true →
        env.probeOk = false →
        acquireInput name env = ⟨.err "Failed to download input file", [name]⟩) := by
  refine ⟨fun h1 => ?_, fun h1 h2 => ?_, fun h1 h2 h3 => ?_, fun h1 h2 h3 h4 => ?_⟩ <;>
    simp [acquireInput, *]

/-- C4 witness: a network failure caches nothing; a JSON content type is
rejected before anything is written. -/
theorem c4_acquisition_error_and_cache_state_witness :
    acquireInput "cache/f.mp4" ⟨false, false, true, true, 0, 0⟩
        = ⟨.err "Failed to download input file", []⟩ ∧
    acquireInput "cache/f.mp4" ⟨true, true, true, true, 0, 0⟩
        = ⟨.err "Invalid file type", []⟩ := by
  exact ⟨(c4_acquisition_error_and_cache_state "cache/f.mp4"
            ⟨false, false, true, true, 0, 0⟩).1 rfl,
         (c4_acquisition_error_and_cache_state "cache/f.mp4"
            ⟨true, true, true, true, 0, 0⟩).2.1 rfl rfl⟩

/-- C5: with a (non-empty) webhook URL, a delivery failure after a
successful render makes the whole job fail; without a webhook URL the job
succeeds as soon as the render does, with no notification error. -/
theorem c5_webhook_failure_fails_job (d : VideoProcessingData) (env : TaskEnv)
    (hdims : ¬(d.input_width ≤ 0 ∨ d.input_height ≤ 0 ∨
               d.output_width ≤ 0 ∨ d.output_height ≤ 0))
    (hr : env.renderOk = true) :
    (webhookRequested d = true → env.webhookOk = false →
        (createVideoTask d env).outcome = .failure .webhookFailed) ∧
    (d.webhook_url = none → (createVideoTask d env).outcome = .success) := by
  constructor
  · intro hw hfail
    simp [createVideoTask, hdims, hr, hw, hfail]
  · intro hnone
    have hw : webhookRequested d = false := by simp [webhookRequested, hnone]
    simp [createVideoTask, hdims, hr, hw]

/-- C5 witness: a rendered job with an unreachable webhook fails with the
webhook error; the same job without a webhook URL succeeds. -/
theorem c5_webhook_failure_fails_job_witness :
    (createVideoTask (mkJob 0 false 800 600 400 400 (some "https://example.com/hook"))
        ⟨true, false, true, true⟩).outcome = .failure .webhookFailed ∧
    (createVideoTask (mkJob 0 false 800 600 400 400 none)
        ⟨true, true, true, true⟩).outcome = .success := by
  refine ⟨(c5_webhook_failure_fails_job
              (mkJob 0 false 800 600 400 400 (some "https://example.com/hook"))
              ⟨true, false, true, true⟩ (by decide) rfl).1 (by decide) rfl,
          (c5_webhook_failure_fails_job (mkJob 0 false 800 600 400 400 none)
              ⟨true, true, true, true⟩ (by decide) rfl).2 rfl⟩

/-- C6: with the options the handler passes (3 attempts, exponential
backoff from 2000 ms), a job whose handler always throws is retried after
2000 ms and then 4000 ms, becomes terminally failed on its third attempt
with exactly 3 attempts made (running the queue longer changes nothing),
and a failed job is never processed again. -/
theorem c6_retry_backoff_then_terminal_failure :
    runFailing videoJobOpts 3 = (⟨.failed, 3⟩, [2000, 4000]) ∧
    runFailing videoJobOpts 5 = (⟨.failed, 3⟩, [2000, 4000]) ∧
    backoffDelayFor videoJobOpts 1 = 2000 ∧
    backoffDelayFor videoJobOpts 2 = 4000 ∧
    (∀ (handlerOk : Bool) (a : Nat),
        processAttempt videoJobOpts handlerOk ⟨.failed, a⟩ = (⟨.failed, a⟩, none)) := by
  refine ⟨by decide, by decide, by decide, by decide, ?_⟩
  intro handlerOk a
  simp [processAttempt]

/-- C7: the handler checks the structural schema first and fails fast with
the schema error regardless of the URLs; only with a valid schema is the
allow-list checked, first for the input URL, then for a present non-empty
webhook URL; the schema-violation error is distinguishable from the
disallowed-host error. -/
theorem c7_schema_before_allowlist (r : VideoRequest) :
    ((validateJson r).isValid = false →
        validateCreateVideoRequest r = some "Invalid input data") ∧
    ((validateJson r).isValid = true → isValidUrl r.input_url = false →
        validateCreateVideoRequest r = some "Invalid input URL") ∧
    (∀ u : String, (validateJson r).isValid = true → isValidUrl r.input_url = true →
        r.webhook_url = some u → u ≠ "" → isValidUrl u = false →
        validateCreateVideoRequest r = some "Invalid webhook URL") ∧
    ("Invalid input data" ≠ "Invalid input URL") := by
  refine ⟨?_, ?_, ?_, by decide⟩
  · intro h
    simp [validateCreateVideoRequest, h]
  · intro h1 h2
    simp [validateCreateVideoRequest, h1, h2]
  · intro u h1 h2 h3 h4 h5
    simp [validateCreateVideoRequest, h1, h2, h3, h4, h5]

/-- C7 witness: a malformed record id yields the schema error even though
its URLs are allow-listed; a schema-valid request with a disallowed input
host yields the input-URL error; one with a disallowed webhook host
yields the webhook-URL error. -/
theorem c7_schema_before_allowlist_witness :
    validateCreateVideoRequest reqBadId = some "Invalid input data" ∧
    validateCreateVideoRequest reqEvilInput = some "Invalid input URL" ∧
    validateCreateVideoRequest reqEvilHook = some "Invalid webhook URL" := by
  refine ⟨(c7_schema_before_allowlist reqBadId).1 (by decide),
          (c7_schema_before_allowlist reqEvilInput).2.1 (by decide) (by decide),
          (c7_schema_before_allowlist reqEvilHook).2.2.1 "https://evil.com/hook"
            (by decide) (by decide) rfl (by decide) (by decide)⟩

/-- C8: the validator rejects a record id with a space and punctuation, a
duration of 61, a zoom of 150, an allow-listed-scheme URL on a
non-allow-listed host, and a non-http(s) scheme even on an allow-listed
host; the handler answers the disallowed input host with the URL error. -/
theorem c8_concrete_rejections :
    (validateJson reqBadId).isValid = false ∧
    (validateJson reqDuration61).isValid = false ∧
    (validateJson reqZoom150).isValid = false ∧
    isValidUrl "https://evil.com/src.png" = false ∧
    isValidUrl "ftp://example.com/src.png" = false ∧
    validateCreateVideoRequest reqEvilInput = some "Invalid input URL" := by
  decide

/-- C9: the URL check is a total boolean function of the string in this
embedding (the JavaScript try/catch is the `Option` of `parseUrl`): a
string that does not parse yields false, and a parse whose scheme is
neither http nor https yields false. -/
theorem c9_isValidUrl_total_rejections (s : String) :
    (parseUrl s = none → isValidUrl s = false) ∧
    (∀ u : ParsedUrl, parseUrl s = some u → u.protocol ≠ "http:" →
        u.protocol ≠ "https:" → isValidUrl s = false) := by
  constructor
  · intro h
    simp [isValidUrl, h]
  · intro u hu h1 h2
    simp [isValidUrl, hu, List.contains_cons, h1, h2]

/-- C9 witness: a schemeless string does not parse and is rejected; an
ftp URL parses but its scheme is rejected. -/
theorem c9_isValidUrl_total_rejections_witness :
    isValidUrl "not a url" = false ∧ isValidUrl "ftp://example.com/a" = false := by
  refine ⟨(c9_isValidUrl_total_rejections "not a url").1 (by decide),
          (c9_isValidUrl_total_rejections "ftp://example.com/a").2
            ⟨"ftp:", "example.com"⟩ (by decide) (by decide) (by decide)⟩

/-- C10: for positive dimensions, crop set and differing dimensions, the
crop rectangle lies inside the input frame: non-negative offsets and
offset plus extent bounded by the input dimension on each axis. -/
theorem c10_crop_rect_within_input (d : VideoProcessingData)
    (_hiw : 0 < d.input_width) (_hih : 0 < d.input_height)
    (_how : 0 < d.output_width) (_hoh : 0 < d.output_height)
    (_hc : d.crop = true) (_hd : dimsDiffer d) :
    0 ≤ cropX d ∧ 0 ≤ cropY d ∧
    cropX d + cropWidth d ≤ d.input_width ∧
    cropY d + cropHeight d ≤ d.input_height := by
  unfold cropX cropY cropWidth cropHeight
  omega

/-- C10 witness: the 800×600 → 400×400 crop job's rectangle lies inside
the input frame. -/
theorem c10_crop_rect_within_input_witness :
    0 ≤ cropX (mkJob 0 true 800 600 400 400 none) ∧
    0 ≤ cropY (mkJob 0 true 800 600 400 400 none) ∧
    cropX (mkJob 0 true 800 600 400 400 none) + cropWidth (mkJob 0 true 800 600 400 400 none)
      ≤ (mkJob 0 true 800 600 400 400 none).input_width ∧
    cropY (mkJob 0 true 800 600 400 400 none) + cropHeight (mkJob 0 true 800 600 400 400 none)
      ≤ (mkJob 0 true 800 600 400 400 none).input_height := by
  exact c10_crop_rect_within_input (mkJob 0 true 800 600 400 400 none)
    (by decide) (by decide) (by decide) (by decide) rfl (by decide)

end J2V
